import Mathlib

/-!
Verification of the `Tummler` flight-controller descriptor
(`src/core/services/ardupilot_manager/flight_controller_detector/linux/tummler.py`).

The Python fragment defines one board descriptor: a class-level
`manufacturer` string, a `devices` table mapping device-role keys to
`(address, bus_index)` pairs, a constructor that forwards keyword
arguments to the base class together with fixed `name` and `platform`
keywords, a `detect` method evaluating
`all(self.check_for_i2c_device(bus, address) for address, bus in self.devices.values())`,
and a `get_serials` method returning a fixed two-element list of serial
descriptors.

The bus probe `check_for_i2c_device`, the `Platform` and `Serial` types and
the base-class constructor live outside the fragment; they are modelled from
the specification and passed in as parameters where their behaviour matters.
-/

namespace TummlerOS

/-- Modelled from the spec: `typedefs.Platform`, a closed enumeration of
supported board models (the module is outside the fragment); only the
`Tummler` variant is relevant here. -/
inductive Platform where
  | Tummler
  deriving DecidableEq, Repr

/-- Modelled from the spec: the value object `typedefs.Serial` with a
logical `port` role and a device-path `endpoint` (the module is outside the
fragment). -/
structure Serial where
  port : String
  endpoint : String
  deriving DecidableEq, Repr

/-- Modelled from the spec: the error raised by the bus probe when the bus
cannot be queried (distinct from a device being absent). -/
inductive BusAccessError where
  | busAccessError
  deriving DecidableEq, Repr

/-- Modelled from the spec: the bus-probe contract
`exists(bus_index, address) -> boolean`, which may instead raise
`BusAccessError`; the first argument is the bus index, the second the
address. -/
def BusProbe : Type := Nat → Nat → Except BusAccessError Bool

/-- Modelled from the spec: the error Python raises when a keyword argument
is supplied twice in one call (a `TypeError`, raised before the callee
runs). -/
inductive CtorError where
  | duplicateKeyword (key : String)
  deriving DecidableEq, Repr

/-- Modelled from the spec: the state a constructed descriptor instance
holds after `LinuxFlightController.__init__` stores the supplied `name` and
`platform` together with the remaining forwarded keyword arguments; the
class additionally carries the class-level `manufacturer`. The type `V`
stands for the (opaque) values of forwarded keyword arguments. -/
structure Instance (V : Type) where
  manufacturer : String
  name : String
  platform : Platform
  extra : List (String × V)
  deriving Repr

namespace Tummler

/-- `Tummler.manufacturer = "Tummler ROV"` (class attribute, line 8). -/
def manufacturer : String := "Tummler ROV"

/-- `Tummler.devices = {"STM32": (0x66, 1)}` (class attribute, lines 9-11):
a table from device-role keys to `(address, bus_index)` pairs, embedded as
an association list in insertion order. -/
def devices : List (String × Nat × Nat) := [("STM32", (0x66, 1))]

/-- The `name` keyword `Tummler.__init__` supplies (line 14). -/
def name : String := "Tummler"

/-- The `platform` keyword `Tummler.__init__` supplies (line 15). -/
def platform : Platform := Platform.Tummler

/-- Modelled from the spec: the base-class constructor
`LinuxFlightController.__init__` (outside the fragment) stores the supplied
`name` and `platform` on the instance along with the remaining forwarded
keyword arguments. -/
def baseInit (V : Type) (data : List (String × V)) (nm : String)
    (plat : Platform) : Instance V :=
  { manufacturer := manufacturer, name := nm, platform := plat,
    extra := data }

/-- `Tummler.__init__(**data)` (lines 13-16), with the base-class
constructor abstracted as the parameter `base`. Python evaluates
`super().__init__(**data, name=name, platform=plat)`: if `data` already
binds `name` or `platform`, the unpacking raises `TypeError` (duplicate
keyword argument) before the callee runs; Python checks the explicit
keywords in order, `name` first. -/
def initWith (V : Type)
    (base : List (String × V) → String → Platform → Instance V)
    (data : List (String × V)) : Except CtorError (Instance V) :=
  if data.any (fun kv => kv.1 = "name") then
    Except.error (CtorError.duplicateKeyword "name")
  else if data.any (fun kv => kv.1 = "platform") then
    Except.error (CtorError.duplicateKeyword "platform")
  else
    Except.ok (base data name platform)

/-- `Tummler.__init__(**data)` with the spec-modelled base constructor. -/
def init (V : Type) (data : List (String × V)) :
    Except CtorError (Instance V) :=
  initWith V (baseInit V) data

/-- Shallow embedding of the generator expression in `Tummler.detect`
(lines 18-19): Python `all(check_for_i2c_device(bus, address)
for address, bus in vals)` evaluates the probes left to right,
short-circuits at the first `false`, and propagates a raised
`BusAccessError`. Each table value is destructured as `(address, bus)` and
the probe is called as `check_for_i2c_device(bus, address)`. -/
def detectAll (check_for_i2c_device : Nat → Nat → Except BusAccessError Bool) :
    List (Nat × Nat) → Except BusAccessError Bool
  | [] => Except.ok true
  | (address, bus) :: rest =>
    match check_for_i2c_device bus address with
    | Except.error e => Except.error e
    | Except.ok false => Except.ok false
    | Except.ok true => detectAll check_for_i2c_device rest

/-- `Tummler.detect` (lines 18-19), parameterized by the external bus probe
`check_for_i2c_device`. -/
def detect (check_for_i2c_device : Nat → Nat → Except BusAccessError Bool) :
    Except BusAccessError Bool :=
  detectAll check_for_i2c_device (devices.map Prod.snd)

/-- The same evaluation as `detectAll`, additionally recording the
`(bus_index, address)` argument pairs of every probe invocation, in call
order. -/
def detectAllLog
    (check_for_i2c_device : Nat → Nat → Except BusAccessError Bool) :
    List (Nat × Nat) → Except BusAccessError Bool × List (Nat × Nat)
  | [] => (Except.ok true, [])
  | (address, bus) :: rest =>
    match check_for_i2c_device bus address with
    | Except.error e => (Except.error e, [(bus, address)])
    | Except.ok false => (Except.ok false, [(bus, address)])
    | Except.ok true =>
      let r := detectAllLog check_for_i2c_device rest
      (r.1, (bus, address) :: r.2)

/-- `Tummler.detect` instrumented to record every probe invocation with its
argument pair `(bus_index, address)`. -/
def detectLog
    (check_for_i2c_device : Nat → Nat → Except BusAccessError Bool) :
    Except BusAccessError Bool × List (Nat × Nat) :=
  detectAllLog check_for_i2c_device (devices.map Prod.snd)

/-- `Tummler.get_serials` (lines 21-25): a literal two-element list. -/
def get_serials : List Serial :=
  [{ port := "C", endpoint := "/dev/ttyAMA0" },
   { port := "B", endpoint := "/dev/ttyAMA2" }]

/-- `Tummler.get_serials` embedded with the same instrumentation available
to `detect`: it receives the bus probe and a probe-invocation counter, but
its body (a literal list construction, lines 22-25) invokes neither, so the
counter passes through unchanged. -/
def get_serialsInstr
    (_check_for_i2c_device : Nat → Nat → Except BusAccessError Bool)
    (probeCalls : Nat) : List Serial × Nat :=
  (get_serials, probeCalls)

end Tummler

/-! ## Helper lemmas -/

/-- A probe that never raises makes `detectAll` compute the conjunction of
the probe results over the list. -/
theorem Tummler.detectAll_ok (f : Nat → Nat → Bool) (l : List (Nat × Nat)) :
    Tummler.detectAll (fun bus address => Except.ok (f bus address)) l
      = Except.ok (l.all fun p => f p.2 p.1) := by
  induction l with
  | nil => rfl
  | cons hd tl ih =>
    obtain ⟨address, bus⟩ := hd
    cases h : f bus address with
    | false => simp [Tummler.detectAll, h]
    | true => simp [Tummler.detectAll, h, ih]

/-- `List.all` is invariant under permutation of the list. -/
theorem List.all_of_perm {α : Type} (p : α → Bool) {l₁ l₂ : List α}
    (h : l₁.Perm l₂) : l₁.all p = l₂.all p := by
  rw [Bool.eq_iff_iff, List.all_eq_true, List.all_eq_true]
  exact ⟨fun H x hx => H x (h.mem_iff.mpr hx),
    fun H x hx => H x (h.mem_iff.mp hx)⟩

/-! ## Claims -/

/-- C1: for the Tummler descriptor, when no probe raises, `detect()` equals
the conjunction of the probe results over all entries of `devices` (each
entry `(address, bus)` probed as `check_for_i2c_device(bus, address)`). -/
theorem detect_eq_conjunction (f : Nat → Nat → Bool) :
    Tummler.detect (fun bus address => Except.ok (f bus address))
      = Except.ok ((Tummler.devices.map Prod.snd).all fun p => f p.2 p.1) :=
  Tummler.detectAll_ok f (Tummler.devices.map Prod.snd)

/-- C2: if the probe raises `BusAccessError` at the configured address
during `Tummler.detect()`, `detect()` propagates that error rather than
returning `false`. -/
theorem detect_propagates_error
    (check : Nat → Nat → Except BusAccessError Bool) (e : BusAccessError)
    (h : check 1 0x66 = Except.error e) :
    Tummler.detect check = Except.error e := by
  simp [Tummler.detect, Tummler.devices, Tummler.detectAll, h]

/-- C2 witness: a probe that raises at bus 1, address 0x66 makes `detect`
fail with that error. -/
theorem detect_propagates_error_witness :
    Tummler.detect (fun _ _ => Except.error BusAccessError.busAccessError)
      = Except.error BusAccessError.busAccessError :=
  detect_propagates_error (fun _ _ => Except.error BusAccessError.busAccessError)
    BusAccessError.busAccessError rfl

/-- C3: `get_serials()` returns exactly
`[Serial(port="C", endpoint="/dev/ttyAMA0"),
Serial(port="B", endpoint="/dev/ttyAMA2")]` in that order; in the pure
embedding repeated calls are definitionally identical. -/
theorem get_serials_exact :
    Tummler.get_serials
      = [{ port := "C", endpoint := "/dev/ttyAMA0" },
         { port := "B", endpoint := "/dev/ttyAMA2" }] := rfl

/-- C4: for every probe, `Tummler.detect()` invokes the probe exactly once,
passing the bus index 1 as the first argument and the address 0x66 as the
second (even though `devices` stores the pair as `(0x66, 1)`). -/
theorem detect_probe_calls
    (check : Nat → Nat → Except BusAccessError Bool) :
    (Tummler.detectLog check).2 = [(1, 0x66)] := by
  rcases h : check 1 0x66 with e | b
  · simp [Tummler.detectLog, Tummler.devices, Tummler.detectAllLog, h]
  · cases b <;>
      simp [Tummler.detectLog, Tummler.devices, Tummler.detectAllLog, h]

/-- C5: `get_serials()` never invokes the bus probe: under probe
instrumentation the invocation counter is unchanged (stays at zero when it
starts at zero), and the result is the fixed list, independent of the probe
supplied. -/
theorem get_serials_no_probe
    (check : Nat → Nat → Except BusAccessError Bool) (probeCalls : Nat) :
    Tummler.get_serialsInstr check probeCalls
      = ([{ port := "C", endpoint := "/dev/ttyAMA0" },
          { port := "B", endpoint := "/dev/ttyAMA2" }], probeCalls) := rfl

/-- C6: the Tummler `devices` table is non-empty and contains exactly the
entry mapping "STM32" to the pair `(0x66, 1)`; it is a fixed constant of
the descriptor (nothing in the embedding of `detect` or `get_serials`
writes to it). -/
theorem devices_invariant :
    Tummler.devices = [("STM32", (0x66, 1))] ∧ Tummler.devices ≠ [] :=
  ⟨rfl, by decide⟩

/-- C7: over an arbitrary devices mapping, an empty table makes the
`detect()` conjunction trivially `true`, for any probe. -/
theorem detect_empty_true
    (check : Nat → Nat → Except BusAccessError Bool) :
    Tummler.detectAll check [] = Except.ok true := rfl

/-- C8: with a probe assignment that never raises, the boolean result of
the `detect()` conjunction is the same for every permutation of the device
entries. -/
theorem detect_perm_invariant (f : Nat → Nat → Bool)
    (l₁ l₂ : List (Nat × Nat)) (h : l₁.Perm l₂) :
    Tummler.detectAll (fun bus address => Except.ok (f bus address)) l₁
      = Tummler.detectAll (fun bus address => Except.ok (f bus address)) l₂ := by
  rw [Tummler.detectAll_ok, Tummler.detectAll_ok,
    List.all_of_perm _ h]

/-- C8 witness: swapping two concrete entries leaves the evaluated
conjunction unchanged. -/
theorem detect_perm_invariant_witness :
    Tummler.detectAll (fun bus address => Except.ok (bus < address))
        [(2, 3), (4, 5)]
      = Tummler.detectAll (fun bus address => Except.ok (bus < address))
        [(4, 5), (2, 3)] :=
  detect_perm_invariant (fun bus address => decide (bus < address))
    [(2, 3), (4, 5)] [(4, 5), (2, 3)] (List.Perm.swap (4, 5) (2, 3) [])

/-- C9: every successfully constructed Tummler instance has
`manufacturer = "Tummler ROV"`, `name = "Tummler"` and
`platform = Platform.Tummler`, whatever keyword arguments were forwarded. -/
theorem init_fixed_fields (V : Type) (data : List (String × V))
    (t : Instance V) (h : Tummler.init V data = Except.ok t) :
    t.manufacturer = "Tummler ROV" ∧ t.name = "Tummler"
      ∧ t.platform = Platform.Tummler := by
  unfold Tummler.init Tummler.initWith at h
  split at h
  · exact absurd h (by simp)
  · split at h
    · exact absurd h (by simp)
    · cases h
      exact ⟨rfl, rfl, rfl⟩

/-- C9 witness: constructing with no forwarded keyword arguments succeeds
and yields the fixed metadata. -/
theorem init_fixed_fields_witness :
    (Instance.mk (V := Nat) "Tummler ROV" "Tummler" Platform.Tummler []).manufacturer
        = "Tummler ROV"
      ∧ (Instance.mk (V := Nat) "Tummler ROV" "Tummler" Platform.Tummler []).name
        = "Tummler"
      ∧ (Instance.mk (V := Nat) "Tummler ROV" "Tummler" Platform.Tummler []).platform
        = Platform.Tummler :=
  init_fixed_fields Nat []
    (Instance.mk "Tummler ROV" "Tummler" Platform.Tummler []) rfl

/-- C10: whenever the forwarded keyword arguments contain the key "name" or
the key "platform", construction fails with a duplicate-keyword `TypeError`
before the base-class constructor runs — the result is the same error for
every base constructor. -/
theorem init_duplicate_keyword (V : Type) (data : List (String × V))
    (base : List (String × V) → String → Platform → Instance V)
    (h : (data.any fun kv => kv.1 = "name" || kv.1 = "platform") = true) :
    ∃ key, Tummler.initWith V base data
      = Except.error (CtorError.duplicateKeyword key) := by
  unfold Tummler.initWith
  rcases hn : data.any (fun kv => kv.1 = "name") with _ | _
  · rcases hp : data.any (fun kv => kv.1 = "platform") with _ | _
    · exfalso
      obtain ⟨kv, hkv, hor⟩ := List.any_eq_true.mp h
      have hor2 : kv.1 = "name" ∨ kv.1 = "platform" := by simpa using hor
      rcases hor2 with h1 | h1
      · have hy : (data.any fun kv => decide (kv.1 = "name")) = true :=
          List.any_eq_true.mpr ⟨kv, hkv, by simp [h1]⟩
        rw [hn] at hy
        exact Bool.false_ne_true hy
      · have hy : (data.any fun kv => decide (kv.1 = "platform")) = true :=
          List.any_eq_true.mpr ⟨kv, hkv, by simp [h1]⟩
        rw [hp] at hy
        exact Bool.false_ne_true hy
    · exact ⟨"platform", by simp [hn, hp]⟩
  · exact ⟨"name", by simp [hn]⟩

/-- C10 witness: forwarding a `name` keyword makes construction fail with a
duplicate-keyword error, with the base constructor never consulted. -/
theorem init_duplicate_keyword_witness :
    ∃ key, Tummler.initWith Nat (Tummler.baseInit Nat) [("name", 0)]
      = Except.error (CtorError.duplicateKeyword key) :=
  init_duplicate_keyword Nat [("name", 0)] (Tummler.baseInit Nat)
    (by decide)

end TummlerOS
